import Mathlib

/-!
Verification model of src/server.js, the remote browser server.

Each relevant fragment of the JavaScript source is shallowly embedded as an
executable Lean definition, and the specification claims are settled as
theorems over those definitions.  Line numbers in comments refer to
src/server.js.
-/

namespace RemoteBrowser

/-! Configuration defaults, server.js lines 13 to 34.  All are env
overridable; the defaults below are the documented ones.  The 30000 and
3000 values are hardcoded literals at lines 228 and 114. -/

def INTERACTION_FRAME_DELAY_MS : Nat := 50

def POST_EVENT_EXTRA_DELAY_MS : Nat := 1500

def NAV_FRAME_DELAY_MS : Nat := 300

def SCREENSHOT_QUALITY : Nat := 75

def SCREENSHOT_TIMEOUT_MS : Nat := 5000

def BROWSER_SWEEP_INTERVAL_MS : Nat := 300000

def MIN_SCROLL_FRAME_INTERVAL_MS : Nat := 120

def SESSION_REMOVAL_GRACE_MS : Nat := 30000

def TIMEOUT_LOG_COOLDOWN_MS : Nat := 3000

/-- One entry of the activeSessions map, server.js line 38: a session key
maps to an object holding page, context and browser.  The page and the
context are modelled by their observable state (closed or not, current
url); the browser reference is modelled by a numeric identity, since the
sweep at line 318 compares browsers by reference. -/
structure Session where
  url : String
  pageClosed : Bool
  contextClosed : Bool
  browserId : Nat
  deriving Repr, DecidableEq

/-- The activeSessions map, sessionKey to Session, keys unique. -/
abbrev Registry := List (String × Session)

/-- activeSessions.has, JS Map semantics. -/
def Registry.hasKey (r : Registry) (k : String) : Bool :=
  r.any (fun p => p.1 == k)

/-- activeSessions.get, JS Map semantics. -/
def Registry.get? (r : Registry) (k : String) : Option Session :=
  (r.find? (fun p => p.1 == k)).map Prod.snd

/-- activeSessions.delete, JS Map semantics. -/
def Registry.erase (r : Registry) (k : String) : Registry :=
  r.filter (fun p => p.1 != k)

/-- activeSessions.set, JS Map semantics (keys stay unique). -/
def Registry.set (r : Registry) (k : String) (s : Session) : Registry :=
  (k, s) :: Registry.erase r k

/-- A sample live session used in concrete scenarios. -/
def sess0 : Session :=
  { url := "https://example.test", pageClosed := false, contextClosed := false
    browserId := 1 }

/-- Per connection scheduler state: the closure variables of the
connection handler that the frame scheduler reads, lines 66, 74 and 75
(lastScreenshotHash, lastScrollFrameTs, scrollSettleTimer). -/
structure ConnSchedulerState where
  lastScreenshotHash : Option String
  lastScrollFrameTs : Nat
  scrollSettleTimer : Option Nat
  deriving Repr, DecidableEq

/-- The value those closure variables hold when a connection handler
starts (lines 66, 74, 75: null, 0, null) and also the value both the
reuse path (lines 251 to 253) and the creation path (lines 297 to 299)
assign to them. -/
def connInitState : ConnSchedulerState :=
  { lastScreenshotHash := none, lastScrollFrameTs := 0, scrollSettleTimer := none }

/-- Result of the success path of one sendFrame capture, lines 95 to 104:
the value stored back into lastScreenshotHash and whether the frame bytes
were sent over the websocket. -/
structure FrameSendResult where
  newHash : Option String
  delivered : Bool
  deriving Repr, DecidableEq

/-- Lines 95 to 104 of sendFrame, run after page.screenshot resolved with
bytes whose md5 hex digest is hash.  If force is false and the hash equals
lastScreenshotHash the function returns without sending and without
assignment; otherwise lastScreenshotHash is assigned first (line 100) and
the frame is then sent only when ws.readyState is OPEN (lines 102 to 104),
modelled by wsOpen. -/
def frameDedup (lastScreenshotHash : Option String) (wsOpen : Bool)
    (force : Bool) (hash : String) : FrameSendResult :=
  if !force && (some hash == lastScreenshotHash) then
    { newHash := lastScreenshotHash, delivered := false }
  else
    { newHash := some hash, delivered := wsOpen }

/-- A sequence of successful captures threaded through frameDedup: each
list element is the force flag and the content hash of one capture.
Returns the final stored hash and how many frames were delivered. -/
def runCaptures (wsOpen : Bool) : Option String → List (Bool × String) → Option String × Nat
  | last, [] => (last, 0)
  | last, c :: rest =>
    let r := frameDedup last wsOpen c.1 c.2
    let t := runCaptures wsOpen r.newHash rest
    (t.1, (if r.delivered then 1 else 0) + t.2)

/-- Classification of the errors handled by the catch block of sendFrame,
lines 105 to 120, keyed on the message contents tested there. -/
inductive CaptureError
  /-- message contains Target closed or closed, line 107 -/
  | targetClosed
  /-- message contains Timeout and page.screenshot, line 111 -/
  | screenshotTimeout
  /-- any other capture error, line 118 -/
  | other
  deriving Repr, DecidableEq

/-- Observable outcome of the catch block of sendFrame. -/
structure CatchResult where
  registry : Registry
  /-- session keys whose context was closed by this block -/
  contextsClosed : List String
  logged : Bool
  lastTimeoutLogTs : Nat
  deriving Repr, DecidableEq

/-- The catch block of sendFrame, lines 105 to 120.  On a target closed
style error the session is deleted from activeSessions when present
(lines 107 to 110); note the block contains no context.close call, so
contextsClosed is always empty.  On a screenshot timeout the error is
logged at most once per TIMEOUT_LOG_COOLDOWN_MS (lines 111 to 117).  Any
other error is logged unconditionally (line 119). -/
def sendFrameCatch (r : Registry) (sessionKey : Option String)
    (e : CaptureError) (now lastTimeoutLogTs : Nat) : CatchResult :=
  match e with
  | CaptureError.targetClosed =>
    match sessionKey with
    | some k =>
      if Registry.hasKey r k then
        { registry := Registry.erase r k, contextsClosed := []
          logged := false, lastTimeoutLogTs := lastTimeoutLogTs }
      else
        { registry := r, contextsClosed := [], logged := false
          lastTimeoutLogTs := lastTimeoutLogTs }
    | none =>
      { registry := r, contextsClosed := [], logged := false
        lastTimeoutLogTs := lastTimeoutLogTs }
  | CaptureError.screenshotTimeout =>
    if TIMEOUT_LOG_COOLDOWN_MS < now - lastTimeoutLogTs then
      { registry := r, contextsClosed := [], logged := true
        lastTimeoutLogTs := now }
    else
      { registry := r, contextsClosed := [], logged := false
        lastTimeoutLogTs := lastTimeoutLogTs }
  | CaptureError.other =>
    { registry := r, contextsClosed := [], logged := true
      lastTimeoutLogTs := lastTimeoutLogTs }

/-! Interleaving model of the in flight discipline of sendFrame, lines 78
to 130.  The function has exactly one suspension point, the awaited
page.screenshot call at line 88; everything before and after it runs
synchronously on the single event loop.  Crucially, the finally block at
lines 121 to 129 runs on EVERY exit from the try block, including the two
early returns at lines 80 and 84: a call that merely sets pendingCapture
and returns still executes isCapturing = false and the pending replay
check in its own finally.  The page is taken to stay open and every
capture to eventually resolve. -/

/-- Shared event loop state for sendFrame calls of one connection.
inFlight counts the calls currently suspended at the page.screenshot
await; replaysScheduled lists the delays of the setTimeout replays set at
line 125 that have not yet fired. -/
structure CaptureWorld where
  isCapturing : Bool
  pendingCapture : Bool
  inFlight : Nat
  replaysScheduled : List Nat
  deriving Repr, DecidableEq

/-- Event loop actions: a sendFrame call starts running, a scheduled
replay timer fires (which invokes sendFrame, line 126), or one suspended
screenshot resolves and its call runs to completion. -/
inductive CaptureAct
  | invoke
  | fireReplay
  | complete
  deriving Repr, DecidableEq

def captureWorldInit : CaptureWorld :=
  { isCapturing := false, pendingCapture := false, inFlight := 0
    replaysScheduled := [] }

/-- Synchronous prefix of a sendFrame call on an open page.  If
isCapturing is set (line 82) the call sets pendingCapture, returns, and
its finally block (lines 121 to 128) then resets isCapturing to false,
finds pendingCapture set and the page open, clears it and schedules a
replay after INTERACTION_FRAME_DELAY_MS.  Otherwise the call sets
isCapturing (line 86) and suspends at the screenshot await. -/
def invokeStep (w : CaptureWorld) : CaptureWorld :=
  if w.isCapturing then
    { w with isCapturing := false, pendingCapture := false
             replaysScheduled := w.replaysScheduled ++ [INTERACTION_FRAME_DELAY_MS] }
  else
    { w with isCapturing := true, inFlight := w.inFlight + 1 }

/-- A suspended screenshot resolves: its call runs the rest of the try
body and its finally block, lines 121 to 128: isCapturing := false, then
the pending replay check. -/
def completeStep (w : CaptureWorld) : CaptureWorld :=
  if w.inFlight = 0 then w
  else
    let w1 := { w with inFlight := w.inFlight - 1, isCapturing := false }
    if w1.pendingCapture then
      { w1 with pendingCapture := false
                replaysScheduled := w1.replaysScheduled ++ [INTERACTION_FRAME_DELAY_MS] }
    else w1

/-- One event loop step. -/
def captureStep (w : CaptureWorld) : CaptureAct → CaptureWorld
  | CaptureAct.invoke => invokeStep w
  | CaptureAct.fireReplay =>
    match w.replaysScheduled with
    | [] => w
    | _ :: rest => invokeStep { w with replaysScheduled := rest }
  | CaptureAct.complete => completeStep w

/-! Scroll frame scheduling, lines 143 to 158. -/

/-- Scroll scheduler state plus, for specification purposes, the log of
times at which a live scroll frame was scheduled (the Date.now values for
which line 149 ran). -/
structure ScrollState where
  lastScrollFrameTs : Nat
  scrollSettleTimer : Option Nat
  liveFrameTimes : List Nat
  deriving Repr, DecidableEq

def scrollInit : ScrollState :=
  { lastScrollFrameTs := 0, scrollSettleTimer := none, liveFrameTimes := [] }

/-- scheduleScrollFrames, lines 143 to 158, at current time now.  A live
frame is scheduled only when more than MIN_SCROLL_FRAME_INTERVAL_MS has
elapsed since lastScrollFrameTs (line 147), in which case the timestamp is
updated and a sendFrame is scheduled.  In every case the settle timer is
cleared and rescheduled POST_EVENT_EXTRA_DELAY_MS from now (lines 153 to
157); scrollSettleTimer records the absolute fire time of the single
pending timer. -/
def scheduleScrollFrames (s : ScrollState) (now : Nat) : ScrollState :=
  if MIN_SCROLL_FRAME_INTERVAL_MS < now - s.lastScrollFrameTs then
    { lastScrollFrameTs := now
      scrollSettleTimer := some (now + POST_EVENT_EXTRA_DELAY_MS)
      liveFrameTimes := s.liveFrameTimes ++ [now] }
  else
    { s with scrollSettleTimer := some (now + POST_EVENT_EXTRA_DELAY_MS) }

/-- Outcome of the settle timer callback, lines 154 to 157. -/
structure SettleFireResult where
  state : ScrollState
  /-- the force flag of the sendFrame call issued by the callback -/
  captureForce : Bool
  deriving Repr, DecidableEq

/-- The settle timer callback, lines 154 to 157, firing at time now: it
assigns lastScrollFrameTs and calls sendFrame(page) with the DEFAULT
options, so with force false (line 78).  After firing no settle timer is
pending any more. -/
def settleFireAt (s : ScrollState) (now : Nat) : SettleFireResult :=
  { state := { s with lastScrollFrameTs := now, scrollSettleTimer := none }
    captureForce := false }

/-- A burst of scroll events at the given times, each processed by
scheduleScrollFrames. -/
def runScrollBurst (s : ScrollState) (events : List Nat) : ScrollState :=
  events.foldl scheduleScrollFrames s

/-- Two live frame scheduling times separated by more than the minimum
scroll frame interval. -/
def liveGap (a b : Nat) : Prop :=
  a + MIN_SCROLL_FRAME_INTERVAL_MS < b

/-! Session resolution and lifecycle, lines 212 to 304. -/

/-- Observable outcome of the session lookup at connection time, lines
244 to 260. -/
structure ReuseResult where
  registry : Registry
  reused : Bool
  /-- pending grace period removal timers cancelled by this path -/
  removalTimersCancelled : List String
  /-- scheduler state assigned on reuse (lines 251 to 253); none when the
  handler falls through to session creation -/
  schedulerState : Option ConnSchedulerState
  deriving Repr, DecidableEq

/-- Lines 244 to 260: look up sessionKey in activeSessions; when an entry
exists and its page is not closed the session is reused: the scheduler
variables are reset (lines 251 to 253) and the handler returns.  The
reuse path does not modify the registry and cancels no pending removal
timer: the setTimeout handle created by a previous close handler (line
220) is a local of that handler and is not reachable here, and no
clearTimeout for it appears anywhere in the file. -/
def resolveConnection (r : Registry) (sKey : String) : ReuseResult :=
  match Registry.get? r sKey with
  | some s =>
    if s.pageClosed then
      { registry := r, reused := false, removalTimersCancelled := []
        schedulerState := none }
    else
      { registry := r, reused := true, removalTimersCancelled := []
        schedulerState := some connInitState }
  | none =>
    { registry := r, reused := false, removalTimersCancelled := []
      schedulerState := none }

/-- Body of the removal timeout scheduled by the close handler at lines
220 to 228, firing SESSION_REMOVAL_GRACE_MS after the disconnect: if the
key is still in activeSessions, delete it and close its context (best
effort, errors swallowed).  Returns the new registry and the keys whose
context was closed. -/
def removalTimerFire (r : Registry) (sKey : String) : Registry × List String :=
  if Registry.hasKey r sKey then
    (Registry.erase r sKey, [sKey])
  else
    (r, [])

/-- Observable outcome of session creation, lines 262 to 304. -/
structure CreateResult where
  registry : Registry
  /-- the session object registered and bound to the connection -/
  session : Session
  /-- scheduler state assigned at lines 297 to 299 -/
  schedulerState : ConnSchedulerState
  /-- the first scheduled frame passes force true (line 301) -/
  firstFrameForced : Bool
  deriving Repr, DecidableEq

/-- Lines 275 to 304: open a context and a page from the browser for this
user, navigate to targetUrl with a 15000ms timeout (lines 283 to 288) and
fall back to about:blank when that throws (lines 289 to 292, modelled by
navFails); then register the session (line 294), reset the scheduler
variables (lines 297 to 299) and schedule the initial frames. -/
def createSession (r : Registry) (sKey targetUrl : String) (browserId : Nat)
    (navFails : Bool) : CreateResult :=
  let finalUrl := if navFails then "about:blank" else targetUrl
  let sess : Session :=
    { url := finalUrl, pageClosed := false, contextClosed := false
      browserId := browserId }
  { registry := Registry.set r sKey sess
    session := sess
    schedulerState := connInitState
    firstFrameForced := true }

/-! Browser pool sweep, lines 314 to 329. -/

/-- The userBrowsers map, userId to browser identity (line 37). -/
abbrev BrowserPool := List (String × Nat)

/-- Line 318: some live session holds a reference to this browser. -/
def browserInUse (sessions : Registry) (b : Nat) : Bool :=
  sessions.any (fun p => p.2.browserId == b)

/-- Observable outcome of one sweep pass. -/
structure SweepResult where
  pool : BrowserPool
  /-- browsers on which close was called, in pool order -/
  closeAttempts : List Nat
  /-- browsers whose close threw (the error is logged, line 324) -/
  closeErrors : List Nat
  deriving Repr, DecidableEq

/-- The sweep body, lines 317 to 328: for every pooled browser, when no
session in the activeSessions snapshot references it, close it (an error
is caught and logged, lines 321 to 325) and delete it from the pool
unconditionally (line 326).  closeFails says which browsers throw on
close. -/
def sweepPass (sessions : Registry) (closeFails : Nat → Bool) :
    BrowserPool → SweepResult
  | [] => { pool := [], closeAttempts := [], closeErrors := [] }
  | (uid, b) :: rest =>
    let t := sweepPass sessions closeFails rest
    if browserInUse sessions b then
      { t with pool := (uid, b) :: t.pool }
    else
      { pool := t.pool
        closeAttempts := b :: t.closeAttempts
        closeErrors := if closeFails b then b :: t.closeErrors else t.closeErrors }

/-! Helper lemmas. -/

/-- Identical non forced successful captures starting from an already
matching stored hash deliver nothing. -/
theorem runCaptures_replicate_same (h : String) (n : Nat) :
    (runCaptures true (some h) (List.replicate n (false, h))).2 = 0 := by
  induction n with
  | zero => rfl
  | succ m ih =>
    rw [List.replicate_succ]
    simp [runCaptures, frameDedup, ih]

/-- scheduleScrollFrames preserves the live frame spacing invariant. -/
theorem scheduleScrollFrames_inv (s : ScrollState) (now : Nat)
    (hp : List.Pairwise liveGap s.liveFrameTimes)
    (hle : ∀ x ∈ s.liveFrameTimes, x ≤ s.lastScrollFrameTs) :
    List.Pairwise liveGap (scheduleScrollFrames s now).liveFrameTimes ∧
      ∀ x ∈ (scheduleScrollFrames s now).liveFrameTimes,
        x ≤ (scheduleScrollFrames s now).lastScrollFrameTs := by
  unfold scheduleScrollFrames
  by_cases hg : MIN_SCROLL_FRAME_INTERVAL_MS < now - s.lastScrollFrameTs
  · rw [if_pos hg]
    dsimp only
    constructor
    · rw [List.pairwise_append]
      refine ⟨hp, List.pairwise_singleton _ _, ?_⟩
      intro x hx y hy
      rw [List.mem_singleton] at hy
      subst hy
      have hx2 := hle x hx
      unfold liveGap
      omega
    · intro x hx
      rw [List.mem_append] at hx
      rcases hx with hx | hx
      · have hx2 := hle x hx
        omega
      · rw [List.mem_singleton] at hx
        omega
  · rw [if_neg hg]
    exact ⟨hp, hle⟩

/-- A whole scroll burst preserves the live frame spacing invariant. -/
theorem runScrollBurst_inv (events : List Nat) (s : ScrollState)
    (hp : List.Pairwise liveGap s.liveFrameTimes)
    (hle : ∀ x ∈ s.liveFrameTimes, x ≤ s.lastScrollFrameTs) :
    List.Pairwise liveGap (runScrollBurst s events).liveFrameTimes ∧
      ∀ x ∈ (runScrollBurst s events).liveFrameTimes,
        x ≤ (runScrollBurst s events).lastScrollFrameTs := by
  induction events generalizing s with
  | nil => exact ⟨hp, hle⟩
  | cons e es ih =>
    have h1 : runScrollBurst s (e :: es)
        = runScrollBurst (scheduleScrollFrames s e) es := rfl
    rw [h1]
    have hstep := scheduleScrollFrames_inv s e hp hle
    exact ih (scheduleScrollFrames s e) hstep.1 hstep.2

/-! Claims. -/

/-- Claim C1.  The claim states that a removal scheduled by a connection
close is a no op once a new connection has reused the same key before the
grace timer fires.  The code refutes it: the reuse path (lines 244 to
260) neither cancels the pending setTimeout nor changes the registry, so
the fired timer body (lines 220 to 228) still finds the key in
activeSessions, deletes the reused session and closes its context. -/
theorem c1_pending_removal_fires_after_reuse :
    (resolveConnection [("u1_s1", sess0)] "u1_s1").reused = true ∧
    (resolveConnection [("u1_s1", sess0)] "u1_s1").removalTimersCancelled = [] ∧
    (resolveConnection [("u1_s1", sess0)] "u1_s1").registry = [("u1_s1", sess0)] ∧
    removalTimerFire [("u1_s1", sess0)] "u1_s1" = ([], ["u1_s1"]) := by
  refine ⟨?_, ?_, ?_, ?_⟩ <;> decide

/-- Claim C2.  Dedup and force behaviour of a successful capture on an
open connection: with force false and a matching hash nothing is
delivered and the stored hash is unchanged; with force true, or with a
differing hash, the frame is delivered and the stored hash updated; a
forced capture is always delivered; and any run of identical consecutive
non forced successful captures delivers at most one frame. -/
theorem c2_dedup_and_force (last : Option String) (force : Bool) (h : String) :
    (force = false → some h = last →
      (frameDedup last true force h).delivered = false ∧
      (frameDedup last true force h).newHash = last) ∧
    (force = true →
      (frameDedup last true force h).delivered = true ∧
      (frameDedup last true force h).newHash = some h) ∧
    (some h ≠ last →
      (frameDedup last true force h).delivered = true ∧
      (frameDedup last true force h).newHash = some h) ∧
    (∀ n : Nat, (runCaptures true last (List.replicate n (false, h))).2 ≤ 1) := by
  refine ⟨?_, ?_, ?_, ?_⟩
  · rintro rfl rfl
    simp [frameDedup]
  · rintro rfl
    simp [frameDedup]
  · intro hne
    have hb : (some h == last) = false := by
      simp only [beq_eq_false_iff_ne, ne_eq]
      exact hne
    simp [frameDedup, hb]
  · intro n
    cases n with
    | zero => simp [runCaptures]
    | succ m =>
      rw [List.replicate_succ]
      by_cases hl : some h = last
      · subst hl
        simp [runCaptures, frameDedup, runCaptures_replicate_same]
      · have hb : (some h == last) = false := by
          simp only [beq_eq_false_iff_ne, ne_eq]
          exact hl
        simp [runCaptures, frameDedup, hb, runCaptures_replicate_same]

/-- Claim C2 witness. -/
theorem c2_dedup_and_force_witness :
    (frameDedup (some "a") true false "a").delivered = false ∧
    (frameDedup none true true "a").delivered = true ∧
    (frameDedup (some "b") true false "a").delivered = true :=
  ⟨((c2_dedup_and_force (some "a") false "a").1 rfl rfl).1,
   ((c2_dedup_and_force none true "a").2.1 rfl).1,
   ((c2_dedup_and_force (some "b") false "a").2.2.1 (by decide)).1⟩

/-- Claim C3.  The claim states that no two captures for one session ever
overlap.  The code refutes it: a sendFrame call arriving while a capture
is in flight sets pendingCapture and returns early, but its finally block
(which runs on that early return) resets isCapturing to false and
schedules a replay; when the replay fires while the first screenshot is
still pending, it finds isCapturing false and starts a second concurrent
screenshot.  After the trace below two calls are suspended at the
screenshot await at once. -/
theorem c3_overlapping_captures_reachable :
    ([CaptureAct.invoke, CaptureAct.invoke, CaptureAct.fireReplay].foldl
        captureStep captureWorldInit).inFlight = 2 := by
  decide

/-- Claim C4 counterexample.  The claim states that the pending flag is
cleared and the new capture scheduled when the in flight capture
completes.  In fact both happen in the finally block of the requesting
call itself: after the second invoke (first capture still in flight,
inFlight = 1) pendingCapture is already false and the replay is already
scheduled, and the subsequent completion of the in flight capture
schedules nothing further. -/
theorem c4_counterexample :
    ([CaptureAct.invoke, CaptureAct.invoke].foldl captureStep captureWorldInit)
      = { isCapturing := false, pendingCapture := false, inFlight := 1
          replaysScheduled := [INTERACTION_FRAME_DELAY_MS] } ∧
    ([CaptureAct.invoke, CaptureAct.invoke, CaptureAct.complete].foldl
        captureStep captureWorldInit).replaysScheduled
      = [INTERACTION_FRAME_DELAY_MS] := by
  refine ⟨?_, ?_⟩ <;> decide

/-- Claim C4 amended.  A capture requested while another is executing
sets the pending flag and returns without starting a capture (inFlight
unchanged), and the SAME call then immediately clears the flag in its
finally block, resets the in flight marker and schedules exactly one new
capture after INTERACTION_FRAME_DELAY_MS; the request is deferred, not
lost. -/
theorem c4_request_during_capture_deferred (w : CaptureWorld)
    (hw : w.isCapturing = true) :
    captureStep w CaptureAct.invoke
      = { w with isCapturing := false, pendingCapture := false
                 replaysScheduled := w.replaysScheduled ++ [INTERACTION_FRAME_DELAY_MS] } := by
  simp [captureStep, invokeStep, hw]

/-- Claim C4 witness. -/
theorem c4_request_during_capture_deferred_witness :
    captureStep
        { isCapturing := true, pendingCapture := false, inFlight := 1
          replaysScheduled := [] } CaptureAct.invoke
      = { isCapturing := false, pendingCapture := false, inFlight := 1
          replaysScheduled := [INTERACTION_FRAME_DELAY_MS] } := by
  simpa using c4_request_during_capture_deferred
    { isCapturing := true, pendingCapture := false, inFlight := 1
      replaysScheduled := [] } rfl

/-- Claim C5 counterexample.  The claim states the settle frame is a
forced quality frame that is captured and emitted.  In the code the
settle callback calls sendFrame with the default options, so force is
false, and a non forced capture whose hash matches the stored hash is not
delivered.  Concretely: after scrolls at 200 and 300 the single settle
timer is set for 1800; its callback issues a capture with force false,
and when that capture hashes to the already stored value nothing is
emitted. -/
theorem c5_counterexample :
    (runScrollBurst scrollInit [200, 300]).scrollSettleTimer = some 1800 ∧
    (settleFireAt (runScrollBurst scrollInit [200, 300]) 1800).captureForce = false ∧
    (frameDedup (some "a") true false "a").delivered = false := by
  refine ⟨?_, ?_, ?_⟩ <;> decide

/-- Claim C5 amended.  Every scroll event cancels and reschedules the
single settle timer; after the last event of a burst the one pending
timer is set POST_EVENT_EXTRA_DELAY_MS after that event and fires exactly
once (after firing no settle timer is pending), triggering one NON forced
capture, which is delivered exactly when its content hash differs from
the stored last sent hash. -/
theorem c5_settle_once (s : ScrollState) (es : List Nat) (elast t : Nat) :
    (runScrollBurst s (es ++ [elast])).scrollSettleTimer
      = some (elast + POST_EVENT_EXTRA_DELAY_MS) ∧
    (settleFireAt (runScrollBurst s (es ++ [elast])) t).captureForce = false ∧
    (settleFireAt (runScrollBurst s (es ++ [elast])) t).state.scrollSettleTimer = none ∧
    ∀ (last : Option String) (h : String),
      (frameDedup last true false h).delivered = !(some h == last) := by
  have h1 : runScrollBurst s (es ++ [elast])
      = scheduleScrollFrames (runScrollBurst s es) elast := by
    simp [runScrollBurst, List.foldl_append]
  refine ⟨?_, rfl, rfl, ?_⟩
  · rw [h1]
    unfold scheduleScrollFrames
    by_cases hg : MIN_SCROLL_FRAME_INTERVAL_MS
        < elast - (runScrollBurst s es).lastScrollFrameTs
    · rw [if_pos hg]
    · rw [if_neg hg]
  · intro last h
    by_cases hb : (some h == last) = true
    · simp [frameDedup, hb]
    · have hb2 : (some h == last) = false := by
        cases hx : (some h == last)
        · rfl
        · exact absurd hx hb
      simp [frameDedup, hb2]

/-- Claim C6.  A live scroll frame is scheduled exactly when more than
MIN_SCROLL_FRAME_INTERVAL_MS has elapsed since the last live scroll frame
timestamp, and consequently the scheduling times of any two live frames
of a burst are more than that interval apart, bounding the live update
rate regardless of wheel event frequency. -/
theorem c6_live_scroll_spacing (events : List Nat) (s : ScrollState) (now : Nat) :
    List.Pairwise liveGap (runScrollBurst scrollInit events).liveFrameTimes ∧
    (scheduleScrollFrames s now).liveFrameTimes
      = (if MIN_SCROLL_FRAME_INTERVAL_MS < now - s.lastScrollFrameTs
          then s.liveFrameTimes ++ [now] else s.liveFrameTimes) := by
  constructor
  · have h0 : ∀ x ∈ scrollInit.liveFrameTimes, x ≤ scrollInit.lastScrollFrameTs := by
      intro x hx
      simp [scrollInit] at hx
    exact (runScrollBurst_inv events scrollInit List.Pairwise.nil h0).1
  · unfold scheduleScrollFrames
    by_cases hg : MIN_SCROLL_FRAME_INTERVAL_MS < now - s.lastScrollFrameTs
    · rw [if_pos hg, if_pos hg]
    · rw [if_neg hg, if_neg hg]

/-- Claim C7 counterexample.  The claim states that on a target closed
error the session is removed AND its context closed synchronously.  The
catch block (lines 107 to 110) only deletes the map entry; it contains no
context.close call, so no context is closed in this path. -/
theorem c7_counterexample :
    (sendFrameCatch [("u1_s1", sess0)] (some "u1_s1")
        CaptureError.targetClosed 0 0).registry = [] ∧
    (sendFrameCatch [("u1_s1", sess0)] (some "u1_s1")
        CaptureError.targetClosed 0 0).contextsClosed = [] := by
  refine ⟨?_, ?_⟩ <;> decide

/-- Claim C7 amended.  When a capture fails with a target closed style
error and the owning key is registered, the session is removed from the
registry immediately, but its enclosing context is NOT closed in this
path and nothing is logged. -/
theorem c7_target_closed_removes (r : Registry) (k : String) (now ts : Nat)
    (hk : Registry.hasKey r k = true) :
    (sendFrameCatch r (some k) CaptureError.targetClosed now ts).registry
      = Registry.erase r k ∧
    (sendFrameCatch r (some k) CaptureError.targetClosed now ts).contextsClosed = [] ∧
    (sendFrameCatch r (some k) CaptureError.targetClosed now ts).logged = false := by
  simp [sendFrameCatch, hk]

/-- Claim C7 witness. -/
theorem c7_target_closed_removes_witness :
    (sendFrameCatch [("u1_s1", sess0)] (some "u1_s1")
        CaptureError.targetClosed 5 0).registry
      = Registry.erase [("u1_s1", sess0)] "u1_s1" ∧
    (sendFrameCatch [("u1_s1", sess0)] (some "u1_s1")
        CaptureError.targetClosed 5 0).contextsClosed = [] ∧
    (sendFrameCatch [("u1_s1", sess0)] (some "u1_s1")
        CaptureError.targetClosed 5 0).logged = false :=
  c7_target_closed_removes [("u1_s1", sess0)] "u1_s1" 5 0 (by decide)

/-- Claim C8.  One sweep pass keeps exactly the pool entries some
registered session references; it calls close on exactly the browsers no
registered session references (so never on a referenced one, and sessions
awaiting their grace period removal are still registered and still
count); and a close error only adds a log entry: the surviving pool and
the set of close attempts do not depend on which closes fail, so one
failure blocks neither that removal nor the rest of the sweep. -/
theorem c8_sweep_exact (sessions : Registry) (closeFails : Nat → Bool)
    (pool : BrowserPool) :
    (sweepPass sessions closeFails pool).pool
      = pool.filter (fun e => browserInUse sessions e.2) ∧
    (sweepPass sessions closeFails pool).closeAttempts
      = (pool.filter (fun e => !browserInUse sessions e.2)).map Prod.snd ∧
    (sweepPass sessions closeFails pool).closeErrors
      = ((pool.filter (fun e => !browserInUse sessions e.2)).map Prod.snd).filter
          closeFails := by
  induction pool with
  | nil => exact ⟨rfl, rfl, rfl⟩
  | cons e rest ih =>
    obtain ⟨uid, b⟩ := e
    obtain ⟨ih1, ih2, ih3⟩ := ih
    by_cases hu : browserInUse sessions b = true
    · simp [sweepPass, hu, ih1, ih2, ih3, List.filter_cons]
    · have hu2 : browserInUse sessions b = false := by
        cases hx : browserInUse sessions b
        · rfl
        · exact absurd hx hu
      by_cases hf : closeFails b = true
      · simp [sweepPass, hu2, hf, ih1, ih2, ih3, List.filter_cons]
      · have hf2 : closeFails b = false := by
          cases hx : closeFails b
          · rfl
          · exact absurd hx hf
        simp [sweepPass, hu2, hf2, ih1, ih2, ih3, List.filter_cons]

/-- Claim C9.  When the initial navigation of a new session fails within
its bounded timeout, the page falls back to about:blank, the session is
nevertheless registered under its key, is the session bound to the
connection, and remains usable (its page is open). -/
theorem c9_nav_failure_session_usable (r : Registry) (k t : String) (b : Nat) :
    (createSession r k t b true).session.url = "about:blank" ∧
    Registry.get? (createSession r k t b true).registry k
      = some (createSession r k t b true).session ∧
    Registry.hasKey (createSession r k t b true).registry k = true ∧
    (createSession r k t b true).session.pageClosed = false := by
  refine ⟨rfl, ?_, ?_, rfl⟩
  · simp [createSession, Registry.set, Registry.get?]
  · simp [createSession, Registry.set, Registry.hasKey]

/-- Claim C10.  On every connection establishment, both on session
creation and on session reuse, the per connection scheduler state is
reset to lastScreenshotHash none, lastScrollFrameTs 0 and no settle
timer; consequently the first successful non forced capture on the new
connection is delivered and never deduplicated against frames of a
previous connection. -/
theorem c10_scheduler_reset_on_connect (r : Registry) (k t : String) (b : Nat)
    (nf : Bool) (h : String) :
    (createSession r k t b nf).schedulerState = connInitState ∧
    (resolveConnection [("u1_s1", sess0)] "u1_s1").schedulerState
      = some connInitState ∧
    connInitState.lastScreenshotHash = none ∧
    connInitState.lastScrollFrameTs = 0 ∧
    connInitState.scrollSettleTimer = none ∧
    (frameDedup connInitState.lastScreenshotHash true false h).delivered = true ∧
    (frameDedup connInitState.lastScreenshotHash true false h).newHash = some h := by
  refine ⟨rfl, by decide, rfl, rfl, rfl, rfl, rfl⟩

end RemoteBrowser
